import Mathlib

/-!
Verification of the gpustat data-aggregation and rendering core.

The definitions below are a shallow embedding of `gpustat.py` and
`gpustat/cli.py`.  Numeric fields that the program carries as decimal
strings on the wire (`nvidia-smi --format=csv,nounits` output) are
modelled by the natural numbers those strings denote; rendering converts
them back with `toString`, which agrees with the canonical decimal
strings the provider emits.  Python `dict`/`OrderedDict` values are
modelled by association lists, and the mutation of a `GPUStat` object
shared between the ordered dictionary and a local variable is modelled
by updating the association list at the object's key.
-/

set_option autoImplicit false

namespace Gpustat

/- ANSI escape constants, from class `ANSIColors` in `gpustat.py`. -/
namespace ANSIColors

def RESET : String := "\x1b[0m"

def WHITE : String := "\x1b[1m"

def RED : String := "\x1b[0;31m"

def GREEN : String := "\x1b[0;32m"

def YELLOW : String := "\x1b[0;33m"

def BLUE : String := "\x1b[0;34m"

def MAGENTA : String := "\x1b[0;35m"

def CYAN : String := "\x1b[0;36m"

def GRAY : String := "\x1b[1;30m"

def BOLD_RED : String := "\x1b[1;31m"

def BOLD_GREEN : String := "\x1b[1;32m"

def BOLD_YELLOW : String := "\x1b[1;33m"

end ANSIColors

/-- The `entry` dict of a `GPUStat`: one row of the
`nvidia-smi --query-gpu=index,uuid,name,temperature.gpu,utilization.gpu,memory.used,memory.total`
output.  Numeric columns hold the value denoted by the decimal string. -/
structure GPUEntry where
  index : Nat
  uuid : String
  name : String
  temperature_gpu : Nat
  utilization_gpu : Nat
  memory_used : Nat
  memory_total : Nat
deriving DecidableEq

/-- A resolved process row: one row of
`nvidia-smi --query-compute-apps=gpu_uuid,pid,used_memory` after
`running_processes` merged in the `ps`-resolved `user`/`comm` fields.
`comm` is optional because `process_repr` reads it with
`p.get('comm', p['pid'])`. -/
structure ProcessEntry where
  gpu_uuid : String
  pid : Nat
  used_memory : Nat
  user : String
  comm : Option String
deriving DecidableEq

/-- A raw process row before owner resolution (step 1 of
`GPUStatCollection.running_processes`). -/
structure RawProcess where
  gpu_uuid : String
  pid : Nat
  used_memory : Nat
deriving DecidableEq

/-- One entry of the `pid_map` built from `ps -o pid,user,comm` output. -/
structure Owner where
  user : String
  comm : String
deriving DecidableEq

/-- A `GPUStat` object: its `entry` dict and its `processes` list. -/
structure GPUStat where
  entry : GPUEntry
  processes : List ProcessEntry
deriving DecidableEq

/-- `GPUStat.uuid` property. -/
def GPUStat.uuid (g : GPUStat) : String :=
  g.entry.uuid

/-- `GPUStat.add_process`: appends to the object's `processes` list. -/
def GPUStat.add_process (g : GPUStat) (p : ProcessEntry) : GPUStat :=
  { g with processes := g.processes ++ [p] }

/-- The `colors` dict built at the top of `GPUStat.print_to`. -/
structure Colors where
  C0 : String
  C1 : String
  CName : String
  CTemp : String
  CMemU : String
  CMemT : String
  CMemP : String
  CUser : String
  CUtil : String
deriving DecidableEq

/-- The colors dict with every value replaced by `''`
(the `if not with_colors` loop in `print_to`). -/
def Colors.blank : Colors :=
  { C0 := "", C1 := "", CName := "", CTemp := "", CMemU := "", CMemT := ""
    CMemP := "", CUser := "", CUtil := "" }

/-- Lines 62-80 of `gpustat.py`: the color settings of `print_to`,
including the threshold choices for the temperature and utilization
tokens, then blanked out when `with_colors` is false. -/
def mkColors (with_colors : Bool) (entry : GPUEntry) : Colors :=
  let cs : Colors :=
    { C0 := ANSIColors.RESET
      C1 := ANSIColors.CYAN
      CName := ANSIColors.BLUE
      CTemp := if entry.temperature_gpu < 50 then ANSIColors.RED else ANSIColors.BOLD_RED
      CMemU := ANSIColors.BOLD_YELLOW
      CMemT := ANSIColors.YELLOW
      CMemP := ANSIColors.YELLOW
      CUser := ANSIColors.GRAY
      CUtil := if entry.utilization_gpu < 30 then ANSIColors.GREEN else ANSIColors.BOLD_GREEN }
  if with_colors then cs else Colors.blank

/-- Python `'{:>w}'.format(s)`: right-justify in a field of width `w`
(never truncates). -/
def padLeft (s : String) (w : Nat) : String :=
  String.mk (List.replicate (w - s.length) ' ') ++ s

/-- Python `'{:w}'.format(s)` for a string: left-justify in a field of
width `w` (never truncates). -/
def padRight (s : String) (w : Nat) : String :=
  s ++ String.mk (List.replicate (w - s.length) ' ')

/-- The inner function `process_repr` of `GPUStat.print_to`. -/
def process_repr (colors : Colors) (show_cmd show_user show_pid : Bool)
    (p : ProcessEntry) : String :=
  let r : String :=
    if !show_cmd || show_user then colors.CUser ++ p.user ++ colors.C0 else ""
  let r : String :=
    if show_cmd then
      (if r ≠ "" then r ++ ":" else r) ++
        colors.C1 ++ (p.comm.getD (toString p.pid)) ++ colors.C0
    else r
  let r : String := if show_pid then r ++ "/" ++ toString p.pid else r
  r ++ "(" ++ colors.CMemP ++ toString p.used_memory ++ "M" ++ colors.C0 ++ ")"

/-- `GPUStat.print_to`: the one-line display information written to `fp`
(the function's effect is returning the written string). -/
def print_to (g : GPUStat) (with_colors show_cmd show_user show_pid : Bool)
    (gpuname_width : Nat) : String :=
  let colors := mkColors with_colors g.entry
  let reps : String :=
    colors.C1 ++ "[" ++ toString g.entry.index ++ "]" ++ colors.C0 ++ " " ++
    colors.CName ++ padRight g.entry.name gpuname_width ++ colors.C0 ++ " |" ++
    colors.CTemp ++ padLeft (toString g.entry.temperature_gpu) 3 ++ "'C" ++ colors.C0 ++ ", " ++
    colors.CUtil ++ padLeft (toString g.entry.utilization_gpu) 3 ++ " %" ++ colors.C0 ++ " | " ++
    colors.C1 ++ colors.CMemU ++ padLeft (toString g.entry.memory_used) 5 ++ colors.C0 ++ " / " ++
    colors.CMemT ++ padLeft (toString g.entry.memory_total) 5 ++ colors.C0 ++ " MB"
  let reps := reps ++ " |"
  g.processes.foldl
    (fun acc p => acc ++ " " ++ process_repr colors show_cmd show_user show_pid p) reps

/-- Steps 2-3 of `GPUStatCollection.running_processes`: look each raw
row's pid up in the `pid_map` filled from the `ps` output (`owners`;
`none` models a pid whose `pid_map` slot was never overwritten).  An
unresolved row is removed with `process_entries.remove` while iterating
over a copy of the list, which deletes exactly the current row; a
resolved row is merged with its owner dict via `process_entry.update`.
The structural recursion below expresses that remove-or-update pass. -/
def running_processes (entries : List RawProcess) (owners : Nat → Option Owner) :
    List ProcessEntry :=
  match entries with
  | [] => []
  | e :: rest =>
    match owners e.pid with
    | none => running_processes rest owners
    | some o =>
      { gpu_uuid := e.gpu_uuid, pid := e.pid, used_memory := e.used_memory
        user := o.user, comm := some o.comm } :: running_processes rest owners

/-- Forget the merged-in owner fields of a resolved row. -/
def ProcessEntry.raw (p : ProcessEntry) : RawProcess :=
  { gpu_uuid := p.gpu_uuid, pid := p.pid, used_memory := p.used_memory }

/-- A Python `OrderedDict` keyed by uuid, as an association list whose
key order is first-insertion order. -/
abbrev Gpus := List (String × GPUStat)

/-- `self.gpus[k] = v` on an `OrderedDict`: overwrite in place when the
key exists (keeping its position), otherwise append at the end. -/
def odSet (m : Gpus) (k : String) (v : GPUStat) : Gpus :=
  if m.any (fun kv => kv.1 = k) then
    m.map (fun kv => if kv.1 = k then (k, v) else kv)
  else
    m ++ [(k, v)]

/-- Lines 120-123 of `gpustat.py` (`GPUStatCollection.__init__`):
`self.gpus = OrderedDict()` followed by `self.gpus[g.uuid] = g` for each
`g` in `gpu_list`. -/
def initGpus (gpu_list : List GPUStat) : Gpus :=
  (gpu_list.foldl (fun m g => odSet m g.uuid g) [])

/-- `__iter__`: iterating a collection yields `self.gpus.values()`. -/
def iterGpus (m : Gpus) : List GPUStat :=
  m.map Prod.snd

/-- The Python exception raised when a local variable is read before any
assignment to it has executed. -/
inductive PyError where
  | unboundLocal
deriving DecidableEq

/-- `g.add_process(p)` where `g` is the object stored at key `k`:
the mutation is visible through the ordered dict at that key. -/
def addProcessAt (m : Gpus) (k : String) (p : ProcessEntry) : Gpus :=
  m.map (fun kv => if kv.1 = k then (kv.1, kv.2.add_process p) else kv)

/-- The loop body of `GPUStatCollection.update_process_information`
(lines 202-211 of `gpustat.py`), modelled exactly as written:

  for p in processes:
      try:
          g = self.gpus[p['gpu_uuid']]
      except KeyError:
          pass
      g.add_process(p)

`last` is the key of the object the local variable `g` currently refers
to (`none` before the first successful lookup).  On a `KeyError` the
`pass` leaves `g` bound to its previous object, and `g.add_process(p)`
still runs; if `g` was never bound it raises `UnboundLocalError`. -/
def updateProcessLoop (m : Gpus) (last : Option String) :
    List ProcessEntry → Except PyError Gpus
  | [] => .ok m
  | p :: ps =>
    let g : Option String :=
      if m.any (fun kv => kv.1 = p.gpu_uuid) then some p.gpu_uuid else last
    match g with
    | none => .error .unboundLocal
    | some k => updateProcessLoop (addProcessAt m k p) (some k) ps

/-- `GPUStatCollection.update_process_information`, applied to an
already-resolved process list. -/
def update_process_information (m : Gpus) (processes : List ProcessEntry) :
    Except PyError Gpus :=
  updateProcessLoop m none processes

/-- A `GPUStatCollection` as the renderer sees it: the ordered
device mapping plus the host identifier and query timestamp stamped at
construction (`platform.node()` / `datetime.now()`). -/
structure GPUStatCollection where
  gpus : Gpus
  hostname : String
  query_time : Nat
deriving DecidableEq

/-- Ambient process state read by `print_formatted` at render time, not
part of the snapshot or the options: `localeTimestr` is the string
produced by `self.query_time.strftime(locale.nl_langinfo(locale.D_T_FMT))`,
which depends on the process-global locale; `now` is the current wall
clock, available to the process but never read by the renderer. -/
structure RenderEnv where
  localeTimestr : String
  now : Nat
deriving DecidableEq

/-- `GPUStatCollection.print_formatted` (lines 229-253 of `gpustat.py`):
the header line written by `print` followed by one `print_to` line per
device, each terminated by a newline.  The header's color escapes come
from `defaultdict(str)` when `no_color` else `ANSIColors.__dict__`; the
device width is `max([16] + [len(g.entry['name']) for g in self])`. -/
def print_formatted (gc : GPUStatCollection)
    (no_color show_cmd show_user show_pid : Bool) (env : RenderEnv) : String :=
  let cW : String := if no_color then "" else ANSIColors.WHITE
  let cR : String := if no_color then "" else ANSIColors.RESET
  let header : String := cW ++ gc.hostname ++ cR ++ "  " ++ env.localeTimestr
  let gpuname_width : Nat :=
    ((iterGpus gc.gpus).map (fun g => g.entry.name.length)).foldl max 16
  let body : String :=
    (iterGpus gc.gpus).foldl
      (fun acc g =>
        acc ++ print_to g (!no_color) show_cmd show_user show_pid gpuname_width ++ "\n")
      ""
  header ++ "\n" ++ body

/- The command-line front end, `gpustat/cli.py`.  Interval arithmetic is
over the rationals, which carry the comparisons and `max` the code
performs on its interval values. -/

/-- What `main` decides to do after argument parsing (lines 141-153 of
`cli.py`).  Only `loop` and `single` go on to query a snapshot
(`loop_gpustat` / `print_gpustat`); `usageError` writes the message to
standard error and exits with the given code before any query. -/
inductive MainAction where
  | usageError (code : Nat)
  | loop (interval : ℚ)
  | single
deriving DecidableEq

/-- Lines 141-153 of `cli.py`: `interval` is `none` when `-i` was given
without a value (argparse stores `None`, replaced by `1.0`), otherwise
the parsed value (default `0` when the flag is absent). -/
def mainDispatch (json : Bool) (interval : Option ℚ) : MainAction :=
  let i : ℚ := interval.getD 1
  if 0 < i then
    let i : ℚ := max (1/10) i
    if json then .usageError 1 else .loop i
  else
    .single

/-- Lines 48-51 of `cli.py`: the duration `loop_gpustat` sleeps after a
tick whose query-and-render took `elapsed` (`time.sleep` runs only when
`interval - elapsed` is positive; otherwise the next tick starts at
once, i.e. a zero sleep). -/
def tickSleep (interval elapsed : ℚ) : ℚ :=
  let d : ℚ := interval - elapsed
  if 0 < d then d else 0

/- Auxiliary notions for the statements. -/

/-- The ANSI escape character that begins every escape sequence. -/
def ESC : Char := '\x1b'

/-- Whether a string contains the escape character (and hence an ANSI
escape sequence — every sequence the program can emit starts with it). -/
def hasEsc (s : String) : Bool :=
  s.data.any (fun c => c = ESC)

/-- A process row none of whose string fields contain the escape
character. -/
def cleanProcess (p : ProcessEntry) : Bool :=
  !hasEsc p.user && (match p.comm with
    | none => true
    | some c => !hasEsc c)

/-- A device none of whose string fields contain the escape character. -/
def cleanGPU (g : GPUStat) : Bool :=
  !hasEsc g.entry.name && g.processes.all cleanProcess

/-- A snapshot and render environment none of whose string fields
contain the escape character. -/
def cleanCollection (gc : GPUStatCollection) (env : RenderEnv) : Bool :=
  !hasEsc gc.hostname && !hasEsc env.localeTimestr &&
    gc.gpus.all (fun kv => cleanGPU kv.2)

/-- The first-occurrence subsequence of a list: each element at the
position of its first appearance, later duplicates removed.  This is the
key order of a Python dict built by repeated assignment. -/
def keepFirst : List String → List String
  | [] => []
  | x :: xs => x :: keepFirst (xs.filter (fun y => y != x))
termination_by l => l.length
decreasing_by
  simp only [List.length_cons]
  exact Nat.lt_succ_of_le (List.length_filter_le _ _)

/-- The process-token shape claimed in the spec, read literally:
`[user][:cmd][/pid](usedMemM)` where the user part is omitted exactly
when show-cmd is set and show-user is not, the `:cmd` part (colon
included) is appended exactly when show-cmd is set, the `/pid` part
exactly when show-pid is set, and the memory suffix always present. -/
def specTokenShape (show_cmd show_user show_pid : Bool) (p : ProcessEntry) : String :=
  (if show_cmd && !show_user then "" else p.user) ++
  (if show_cmd then ":" ++ p.comm.getD (toString p.pid) else "") ++
  (if show_pid then "/" ++ toString p.pid else "") ++
  "(" ++ toString p.used_memory ++ "M)"

/- Concrete sample data for witnesses and counterexamples
(Scenario A/B of the spec). -/

/-- Scenario A device entry. -/
def demoEntry : GPUEntry :=
  { index := 0, uuid := "u0", name := "GPU0", temperature_gpu := 45
    utilization_gpu := 10, memory_used := 100, memory_total := 8000 }

/-- Scenario A device: no attached processes. -/
def demoGPU : GPUStat :=
  { entry := demoEntry, processes := [] }

/-- Scenario B process row. -/
def demoProc : ProcessEntry :=
  { gpu_uuid := "u0", pid := 123, used_memory := 50, user := "alice", comm := none }

/-- A resolved process row with a command name. -/
def demoProcComm : ProcessEntry :=
  { gpu_uuid := "u0", pid := 123, used_memory := 50, user := "alice"
    comm := some "python" }

/-- Scenario B device: the Scenario A device with the process attached. -/
def demoGPUB : GPUStat :=
  { entry := demoEntry, processes := [demoProc] }

/-- A process row referencing a device absent from the snapshot. -/
def orphanProc : ProcessEntry :=
  { gpu_uuid := "u1", pid := 7, used_memory := 25, user := "bob"
    comm := some "python" }

/-- A one-device snapshot. -/
def demoCollection : GPUStatCollection :=
  { gpus := [("u0", demoGPU)], hostname := "host", query_time := 0 }

/-- Raw process rows for the owner-resolution demo. -/
def demoRaws : List RawProcess :=
  [{ gpu_uuid := "u0", pid := 1, used_memory := 10 },
   { gpu_uuid := "u0", pid := 2, used_memory := 20 }]

/-- An owner resolution that knows pid 1 but not pid 2 (pid 2 exited
between the two queries). -/
def demoOwners : Nat → Option Owner :=
  fun n => if n = 1 then some { user := "alice", comm := "python" } else none

/-- A render environment with an escape-free locale timestamp. -/
def demoEnv : RenderEnv :=
  { localeTimestr := "Mon 01 Jan 2001", now := 0 }

/-- A second device, distinct identity. -/
def demoGPU2 : GPUStat :=
  { entry := { demoEntry with index := 1, uuid := "u1", name := "GPU1" }
    processes := [] }

/-- A two-device list with distinct uuids. -/
def demoList : List GPUStat :=
  [demoGPU, demoGPU2]

/-! Theorems. -/

/-- C1: the spec says a resolved process row whose `gpu_uuid` matches no
device of the snapshot is silently dropped, attached to no device, with
every device's process list unchanged.  The code does not do that:
`g.add_process(p)` sits outside the `try`, so when the first row is an
orphan the loop raises `UnboundLocalError`, and when an orphan row comes
after a matched one it is appended to the process list of the previously
matched device.  This theorem evaluates the embedded loop at both
failing inputs. -/
theorem C1_orphan_row_not_dropped :
    update_process_information [("u0", demoGPU)] [orphanProc]
        = .error .unboundLocal
    ∧ update_process_information [("u0", demoGPU)] [demoProc, orphanProc]
        = .ok [("u0", { entry := demoEntry, processes := [demoProc, orphanProc] })] := by
  constructor <;> rfl

/-- C2: every raw process row whose pid the owner resolution does not
know is silently removed — the rows that survive are exactly the
resolvable ones, in order — and every returned entry carries the
resolved user and command fields. -/
theorem C2_unresolved_pid_dropped (entries : List RawProcess)
    (owners : Nat → Option Owner) :
    (running_processes entries owners).map ProcessEntry.raw
        = entries.filter (fun e => (owners e.pid).isSome)
    ∧ ∀ r ∈ running_processes entries owners,
        ∃ o, owners r.pid = some o ∧ r.user = o.user ∧ r.comm = some o.comm := by
  induction entries with
  | nil => exact ⟨rfl, by intro r hr; cases hr⟩
  | cons e rest ih =>
    rcases ih with ⟨ih1, ih2⟩
    cases ho : owners e.pid with
    | none =>
      refine ⟨?_, ?_⟩
      · simpa [running_processes, ho] using ih1
      · intro r hr
        rw [running_processes, ho] at hr
        exact ih2 r hr
    | some o =>
      refine ⟨?_, ?_⟩
      · simpa [running_processes, ho, ProcessEntry.raw] using ih1
      · intro r hr
        rw [running_processes, ho] at hr
        rcases List.mem_cons.mp hr with h | h
        · exact ⟨o, by simp [h, ho]⟩
        · exact ih2 r h

/-- C2 witness: at the demo rows, pid 2 (unresolved) is dropped and
pid 1 survives. -/
theorem C2_unresolved_pid_dropped_witness :
    (running_processes demoRaws demoOwners).map ProcessEntry.raw
      = demoRaws.filter (fun e => (demoOwners e.pid).isSome) :=
  (C2_unresolved_pid_dropped demoRaws demoOwners).1

/-- C3 counterexample: the Scenario A device does not render the exact
line the claim states — the memory fields are right-justified in a
width-5 column, so three spaces follow the second `|` and two spaces
follow the `/`. -/
theorem C3_scenario_a_counterexample :
    print_to demoGPU false false false false 16
      ≠ "[0] GPU0             | 45'C,  10 % | 100 / 8000 MB |" := by
  decide

/-- C3 amended: the Scenario A device with colors disabled and name
width 16 renders exactly this line, memory fields right-justified to
width 5, and no trailing process tokens. -/
theorem C3_scenario_a_line :
    print_to demoGPU false false false false 16
      = "[0] GPU0             | 45'C,  10 % |   100 /  8000 MB |" := by
  decide

/-- C4: with colors enabled, the temperature token color is bold red
exactly when the temperature is at least 50 and plain red exactly when
it is below 50, and the utilization token color is bold green exactly
when utilization is at least 30 and plain green exactly when below. -/
theorem C4_color_thresholds (e : GPUEntry) :
    ((mkColors true e).CTemp = ANSIColors.BOLD_RED ↔ 50 ≤ e.temperature_gpu)
    ∧ ((mkColors true e).CTemp = ANSIColors.RED ↔ e.temperature_gpu < 50)
    ∧ ((mkColors true e).CUtil = ANSIColors.BOLD_GREEN ↔ 30 ≤ e.utilization_gpu)
    ∧ ((mkColors true e).CUtil = ANSIColors.GREEN ↔ e.utilization_gpu < 30) := by
  have hR : ANSIColors.RED ≠ ANSIColors.BOLD_RED := by decide
  have hG : ANSIColors.GREEN ≠ ANSIColors.BOLD_GREEN := by decide
  by_cases ht : e.temperature_gpu < 50 <;> by_cases hu : e.utilization_gpu < 30 <;>
    simp [mkColors, ht, hu, hR, hR.symm, hG, hG.symm] <;> omega

/-- C4 witness: temperature 65 renders bold red, temperature 30 renders
plain red. -/
theorem C4_color_thresholds_witness :
    (mkColors true { demoEntry with temperature_gpu := 65 }).CTemp
        = ANSIColors.BOLD_RED
    ∧ (mkColors true { demoEntry with temperature_gpu := 30 }).CTemp
        = ANSIColors.RED :=
  ⟨(C4_color_thresholds _).1.mpr (by decide),
   (C4_color_thresholds _).2.1.mpr (by decide)⟩

/-- C6 counterexample: with show-cmd set and show-user unset, the code
renders the command with no leading colon (`python(50M)`), while the
claimed shape appends `:cmd` whenever show-cmd is set (`:python(50M)`). -/
theorem C6_token_shape_counterexample :
    process_repr Colors.blank true false false demoProcComm
      ≠ specTokenShape true false false demoProcComm := by
  decide

/-- C6 amended: with colors suppressed, the token is
`[user][cmd][/pid](usedMemM)` where the user part is omitted exactly when
show-cmd is set and show-user is not, the cmd part is appended exactly
when show-cmd is set and is preceded by `:` exactly when the user part
is nonempty, the `/pid` part is appended exactly when show-pid is set,
and the memory suffix is always present; Scenario B appends exactly
` alice/123(50M)` to the Scenario A line. -/
theorem C6_token_shape (sc su sp : Bool) (p : ProcessEntry) :
    process_repr Colors.blank sc su sp p
      = (let userPart : String := if sc && !su then "" else p.user
         let cmdPart : String :=
           if sc then (if userPart ≠ "" then ":" else "")
                      ++ p.comm.getD (toString p.pid)
           else ""
         let pidPart : String := if sp then "/" ++ toString p.pid else ""
         userPart ++ cmdPart ++ pidPart ++ "(" ++ toString p.used_memory ++ "M)")
    ∧ print_to demoGPUB false false true true 16
      = "[0] GPU0             | 45'C,  10 % |   100 /  8000 MB | alice/123(50M)" := by
  constructor
  · cases sc <;> cases su <;> cases sp <;>
      simp [process_repr, Colors.blank, String.append_assoc] <;>
      by_cases hu : p.user = "" <;> simp [hu, String.append_assoc]
  · decide

/-- C6 witness: the Scenario B token at show-user and show-pid. -/
theorem C6_token_shape_witness :
    process_repr Colors.blank false true true demoProc = "alice/123(50M)" :=
  (C6_token_shape false true true demoProc).1.trans (by decide)

/-- C8: `--json` together with a positive `--interval` is a usage error:
the dispatch writes the message to standard error and exits with code 1,
and only the `loop`/`single` actions ever query a snapshot. -/
theorem C8_json_interval_conflict (i : ℚ) (h : 0 < i) :
    mainDispatch true (some i) = .usageError 1 := by
  simp [mainDispatch, h]

/-- C8 witness: Scenario D, `--json --interval 2`. -/
theorem C8_json_interval_conflict_witness :
    mainDispatch true (some 2) = .usageError 1 :=
  C8_json_interval_conflict 2 (by norm_num)

/-- C9: each watch tick sleeps for `max(0, interval - elapsed)` — in
particular no sleep when the query-and-render duration reaches the
interval — and any positive requested interval is floored at 0.1 before
the loop starts. -/
theorem C9_tick_sleep_and_floor (interval elapsed i : ℚ) (h : 0 < i) :
    tickSleep interval elapsed = max 0 (interval - elapsed)
    ∧ mainDispatch false (some i) = .loop (max (1/10) i)
    ∧ (1/10 : ℚ) ≤ max (1/10) i := by
  refine ⟨?_, by simp [mainDispatch, h], le_max_left _ _⟩
  unfold tickSleep
  rcases lt_or_le 0 (interval - elapsed) with hd | hd
  · rw [if_pos hd, max_eq_right hd.le]
  · rw [if_neg (not_lt.mpr hd), max_eq_left hd]

/-- C9 witness: interval 2 with a half-second tick sleeps 1.5; a
requested interval of 1/100 is floored to 1/10. -/
theorem C9_tick_sleep_and_floor_witness :
    tickSleep 2 (1/2) = max 0 (2 - 1/2)
    ∧ mainDispatch false (some (1/100)) = .loop (max (1/10) (1/100))
    ∧ (1/10 : ℚ) ≤ max (1/10) (1/100) :=
  C9_tick_sleep_and_floor 2 (1/2) (1/100) (by norm_num)

/-- C10 counterexample: the same snapshot (same devices, hostname and
query timestamp) rendered with the same options under two process
locales — whose date-time conventions format the fixed query timestamp
differently — produces different bytes, so the render is not a function
of snapshot and options alone. -/
theorem C10_render_not_locale_free :
    print_formatted demoCollection true false false false
        { localeTimestr := "Mon 01 Jan 2001", now := 0 }
      ≠ print_formatted demoCollection true false false false
        { localeTimestr := "lun 01 ene 2001", now := 0 } := by
  decide

/-- C10 amended: rendering is a pure function of the snapshot, the
options and the locale-formatted timestamp string: two invocations
agreeing on those — whatever the ambient wall clock reads — produce
byte-identical output. -/
theorem C10_render_pure (gc : GPUStatCollection) (nc sc su sp : Bool)
    (e1 e2 : RenderEnv) (h : e1.localeTimestr = e2.localeTimestr) :
    print_formatted gc nc sc su sp e1 = print_formatted gc nc sc su sp e2 := by
  simp [print_formatted, h]

/-- C10 witness: environments differing only in the wall clock render
identically. -/
theorem C10_render_pure_witness :
    print_formatted demoCollection true false false false
        { localeTimestr := "Mon 01 Jan 2001", now := 0 }
      = print_formatted demoCollection true false false false
        { localeTimestr := "Mon 01 Jan 2001", now := 999 } :=
  C10_render_pure demoCollection true false false false _ _ rfl

/-- Helper: escape detection distributes over string append. -/
theorem hasEsc_append (s t : String) : hasEsc (s ++ t) = (hasEsc s || hasEsc t) := by
  simp [hasEsc, String.data_append, List.any_append]

/-- Helper: no digit character is the escape character. -/
theorem digitChar_ne_esc (n : Nat) : Nat.digitChar n ≠ ESC := by
  rcases Nat.lt_or_ge n 16 with h | h
  · interval_cases n <;> decide
  · have h16 : Nat.digitChar n = '*' := by
      unfold Nat.digitChar
      have h0 : ∀ m : Nat, m < 16 → n ≠ m := by omega
      simp [h0 0 (by omega), h0 1 (by omega), h0 2 (by omega), h0 3 (by omega),
        h0 4 (by omega), h0 5 (by omega), h0 6 (by omega), h0 7 (by omega),
        h0 8 (by omega), h0 9 (by omega), h0 10 (by omega), h0 11 (by omega),
        h0 12 (by omega), h0 13 (by omega), h0 14 (by omega), h0 15 (by omega)]
    rw [h16]
    decide

/-- Helper: `Nat.toDigitsCore` prepends only digit characters. -/
theorem toDigitsCore_any_esc (b fuel : Nat) :
    ∀ (n : Nat) (acc : List Char), acc.any (fun c => c = ESC) = false →
      (Nat.toDigitsCore b fuel n acc).any (fun c => c = ESC) = false := by
  induction fuel with
  | zero =>
    intro n acc h
    simpa [Nat.toDigitsCore] using h
  | succ f ih =>
    intro n acc h
    have hd : ((n % b).digitChar :: acc).any (fun c => c = ESC) = false := by
      simp [List.any_cons, h, digitChar_ne_esc]
    rw [Nat.toDigitsCore]
    split
    · exact hd
    · exact ih _ _ hd

/-- Helper: the decimal rendering of a natural number contains no escape
character. -/
theorem hasEsc_toString_nat (n : Nat) : hasEsc (toString n) = false := by
  show hasEsc (Nat.repr n) = false
  have h := toDigitsCore_any_esc 10 (n + 1) n [] (by simp)
  simpa [hasEsc, Nat.repr, Nat.toDigits, List.asString] using h

/-- Helper: a run of spaces contains no escape character. -/
theorem any_esc_replicate_space (n : Nat) :
    (List.replicate n ' ').any (fun c => c = ESC) = false := by
  rw [List.any_eq_false]
  intro x hx
  rcases List.mem_replicate.mp hx with ⟨-, rfl⟩
  decide

/-- Helper: a run of spaces rendered as a string has no escape
character. -/
theorem hasEsc_mk_replicate_space (n : Nat) :
    hasEsc (String.mk (List.replicate n ' ')) = false := by
  show (List.replicate n ' ').any (fun c => c = ESC) = false
  exact any_esc_replicate_space n

/-- Helper: right-justifying does not add escape characters. -/
theorem hasEsc_padLeft (s : String) (w : Nat) : hasEsc (padLeft s w) = hasEsc s := by
  unfold padLeft
  rw [hasEsc_append, hasEsc_mk_replicate_space, Bool.false_or]

/-- Helper: left-justifying does not add escape characters. -/
theorem hasEsc_padRight (s : String) (w : Nat) : hasEsc (padRight s w) = hasEsc s := by
  unfold padRight
  rw [hasEsc_append, hasEsc_mk_replicate_space, Bool.or_false]

/-- Helper: with blanked colors, a clean process row renders to a token
with no escape character. -/
theorem hasEsc_process_repr_blank (sc su sp : Bool) (p : ProcessEntry)
    (h : cleanProcess p = true) :
    hasEsc (process_repr Colors.blank sc su sp p) = false := by
  rw [cleanProcess, Bool.and_eq_true] at h
  have hu : hasEsc p.user = false := by simpa using h.1
  have hc : hasEsc (p.comm.getD (toString p.pid)) = false := by
    have h2 := h.2
    cases hcm : p.comm with
    | none => simpa using hasEsc_toString_nat p.pid
    | some c =>
      rw [hcm] at h2
      simpa using h2
  simp only [process_repr]
  repeat' split
  all_goals try simp only [hasEsc_append, hu, hc, hasEsc_toString_nat]
  all_goals decide

/-- Helper: the process-token fold keeps escape-free output escape-free. -/
theorem hasEsc_proc_fold (sc su sp : Bool) (ps : List ProcessEntry) :
    ∀ (acc : String), hasEsc acc = false → ps.all cleanProcess = true →
      hasEsc (ps.foldl
        (fun acc p => acc ++ " " ++ process_repr Colors.blank sc su sp p) acc)
        = false := by
  induction ps with
  | nil =>
    intro acc h _
    simpa using h
  | cons p ps ih =>
    intro acc h hall
    rw [List.all_cons, Bool.and_eq_true] at hall
    rw [List.foldl_cons]
    refine ih _ ?_ hall.2
    have h1 : hasEsc " " = false := by decide
    simp [hasEsc_append, h, h1, hasEsc_process_repr_blank sc su sp p hall.1]

/-- Helper: with colors disabled, a clean device renders to a line with
no escape character. -/
theorem hasEsc_print_to_false (g : GPUStat) (sc su sp : Bool) (w : Nat)
    (h : cleanGPU g = true) :
    hasEsc (print_to g false sc su sp w) = false := by
  rw [cleanGPU, Bool.and_eq_true] at h
  have hn : hasEsc g.entry.name = false := by simpa using h.1
  have hcol : mkColors false g.entry = Colors.blank := rfl
  simp only [print_to, hcol]
  refine hasEsc_proc_fold sc su sp g.processes _ ?_ h.2
  simp only [hasEsc_append, hasEsc_padLeft, hasEsc_padRight, hn, hasEsc_toString_nat]
  decide

/-- Helper: the device-line fold keeps escape-free output escape-free. -/
theorem hasEsc_body_fold (sc su sp : Bool) (gs : List GPUStat) :
    ∀ (acc : String) (w : Nat), hasEsc acc = false → gs.all cleanGPU = true →
      hasEsc (gs.foldl
        (fun acc g => acc ++ print_to g false sc su sp w ++ "\n") acc) = false := by
  induction gs with
  | nil =>
    intro acc w h _
    simpa using h
  | cons g gs ih =>
    intro acc w h hall
    rw [List.all_cons, Bool.and_eq_true] at hall
    rw [List.foldl_cons]
    refine ih _ _ ?_ hall.2
    have h1 : hasEsc "\n" = false := by decide
    simp [hasEsc_append, h, h1, hasEsc_print_to_false g sc su sp w hall.1]

/-- C5: for every snapshot whose provider strings are escape-free and
every option combination, the color-disabled rendering — header line and
every device line — contains no ANSI escape character, while the
color-enabled rendering always contains one (the renderer performs no
terminal-capability detection that could suppress it). -/
theorem C5_escape_sequences (gc : GPUStatCollection) (sc su sp : Bool)
    (env : RenderEnv) :
    (cleanCollection gc env = true →
      hasEsc (print_formatted gc true sc su sp env) = false)
    ∧ hasEsc (print_formatted gc false sc su sp env) = true := by
  constructor
  · intro h
    rw [cleanCollection, Bool.and_eq_true, Bool.and_eq_true] at h
    have hh : hasEsc gc.hostname = false := by simpa using h.1.1
    have ht : hasEsc env.localeTimestr = false := by simpa using h.1.2
    have hgs : (iterGpus gc.gpus).all cleanGPU = true := by
      rw [iterGpus, List.all_eq_true]
      intro g hgm
      rcases List.mem_map.mp hgm with ⟨kv, hkv, rfl⟩
      exact List.all_eq_true.mp h.2 kv hkv
    have hb := hasEsc_body_fold sc su sp (iterGpus gc.gpus) ""
      (((iterGpus gc.gpus).map (fun g => g.entry.name.length)).foldl max 16)
      (by decide) hgs
    simp only [print_formatted, Bool.not_true]
    simp [hasEsc_append, hh, ht, hb] <;> decide
  · have hW : hasEsc ANSIColors.WHITE = true := by decide
    simp [print_formatted, hasEsc_append, hW]

/-- C5 witness: the demo snapshot is escape-free; its no-color rendering
has no escape character and its colored rendering has one. -/
theorem C5_escape_sequences_witness :
    cleanCollection demoCollection demoEnv = true
    ∧ hasEsc (print_formatted demoCollection true false false false demoEnv) = false
    ∧ hasEsc (print_formatted demoCollection false false false false demoEnv) = true :=
  ⟨by decide,
   (C5_escape_sequences demoCollection false false false demoEnv).1 (by decide),
   (C5_escape_sequences demoCollection false false false demoEnv).2⟩

/-- Helper: membership in the key list matches the `any` test `odSet`
performs. -/
theorem odSet_any_iff (m : Gpus) (k : String) :
    (m.any (fun kv => kv.1 = k) = true) ↔ k ∈ m.map Prod.fst := by
  simp [List.any_eq_true, List.mem_map]

/-- Helper: keys after an `OrderedDict` assignment — unchanged when the
key was present, appended when new. -/
theorem odSet_keys (m : Gpus) (k : String) (v : GPUStat) :
    (odSet m k v).map Prod.fst
      = if k ∈ m.map Prod.fst then m.map Prod.fst else m.map Prod.fst ++ [k] := by
  unfold odSet
  by_cases h : k ∈ m.map Prod.fst
  · rw [if_pos ((odSet_any_iff m k).mpr h), if_pos h, List.map_map]
    refine List.map_congr_left ?_
    intro kv _
    simp only [Function.comp]
    split
    · next heq => exact heq.symm
    · rfl
  · rw [if_neg (fun hc => h ((odSet_any_iff m k).mp hc)), if_neg h, List.map_append]
    rfl

/-- Helper: keys of the ordered-dict fold — existing keys keep their
position, new keys append in first-seen order. -/
theorem initGpus_fold_keys (gs : List GPUStat) :
    ∀ (m : Gpus),
      ((gs.foldl (fun acc g => odSet acc g.uuid g) m).map Prod.fst)
        = m.map Prod.fst
          ++ keepFirst ((gs.map GPUStat.uuid).filter
                (fun u => decide (u ∉ m.map Prod.fst))) := by
  induction gs with
  | nil =>
    intro m
    simp [keepFirst]
  | cons g gs ih =>
    intro m
    by_cases h : g.uuid ∈ m.map Prod.fst
    · have hkeys : (odSet m g.uuid g).map Prod.fst = m.map Prod.fst := by
        rw [odSet_keys, if_pos h]
      rw [List.foldl_cons, ih, hkeys, List.map_cons,
        List.filter_cons_of_neg (by simpa using h)]
    · have hkeys : (odSet m g.uuid g).map Prod.fst = m.map Prod.fst ++ [g.uuid] := by
        rw [odSet_keys, if_neg h]
      rw [List.foldl_cons, ih, hkeys, List.map_cons,
        List.filter_cons_of_pos (by simpa using h), keepFirst, List.filter_filter]
      have hpred : ((gs.map GPUStat.uuid).filter
            (fun u => decide (u ∉ m.map Prod.fst ++ [g.uuid])))
          = (gs.map GPUStat.uuid).filter
              (fun a => (a != g.uuid) && decide (a ∉ m.map Prod.fst)) := by
        apply List.filter_congr
        intro a _
        by_cases hae : a = g.uuid <;> by_cases ham : a ∈ m.map Prod.fst <;>
          simp [hae, ham, List.mem_append, bne_iff_ne]
      rw [hpred]
      simp [List.append_assoc]

/-- Helper: `keepFirst` only returns elements of its input. -/
theorem keepFirst_subset (l : List String) : ∀ a, a ∈ keepFirst l → a ∈ l := by
  induction l using keepFirst.induct with
  | case1 =>
    intro a ha
    rw [keepFirst] at ha
    cases ha
  | case2 x xs ih =>
    intro a ha
    rw [keepFirst] at ha
    rcases List.mem_cons.mp ha with rfl | ha
    · exact List.mem_cons_self _ _
    · exact List.mem_cons_of_mem _ (List.mem_of_mem_filter (ih a ha))

/-- Helper: `keepFirst` output has no duplicates. -/
theorem keepFirst_nodup (l : List String) : (keepFirst l).Nodup := by
  induction l using keepFirst.induct with
  | case1 =>
    rw [keepFirst]
    exact List.nodup_nil
  | case2 x xs ih =>
    rw [keepFirst]
    refine List.nodup_cons.mpr ⟨?_, ih⟩
    intro hx
    have hmem := keepFirst_subset _ _ hx
    have hne := List.of_mem_filter hmem
    simp at hne

/-- Helper: with pairwise-distinct uuids the ordered-dict fold is a
plain append of key-value pairs. -/
theorem initGpus_fold_nodup (gs : List GPUStat) :
    ∀ (m : Gpus), (∀ g ∈ gs, g.uuid ∉ m.map Prod.fst) →
      (gs.map GPUStat.uuid).Nodup →
      gs.foldl (fun acc g => odSet acc g.uuid g) m
        = m ++ gs.map (fun g => (g.uuid, g)) := by
  induction gs with
  | nil =>
    intro m _ _
    simp
  | cons g gs ih =>
    intro m hdisj hnd
    rw [List.map_cons, List.nodup_cons] at hnd
    have hg : g.uuid ∉ m.map Prod.fst := hdisj g (List.mem_cons_self _ _)
    have hset : odSet m g.uuid g = m ++ [(g.uuid, g)] := by
      unfold odSet
      rw [if_neg (fun hc => hg ((odSet_any_iff m g.uuid).mp hc))]
    have hdisj' : ∀ g' ∈ gs, g'.uuid ∉ (m ++ [(g.uuid, g)]).map Prod.fst := by
      intro g' hg' hin
      rw [List.map_append, List.mem_append] at hin
      rcases hin with hin | hin
      · exact hdisj g' (List.mem_cons_of_mem _ hg') hin
      · have heq : g'.uuid = g.uuid := by simpa using hin
        exact hnd.1 (heq ▸ List.mem_map_of_mem GPUStat.uuid hg')
    rw [List.foldl_cons, hset, ih (m ++ [(g.uuid, g)]) hdisj' hnd.2]
    simp

/-- C7: the constructed snapshot keys each device identity exactly once
(pairwise-distinct keys), in first-insertion order — `keepFirst` of the
device rows' uuid sequence — and when the rows carry pairwise-distinct
identities, iterating the snapshot yields exactly the device-row
order. -/
theorem C7_snapshot_mapping (l : List GPUStat) :
    ((initGpus l).map Prod.fst).Nodup
    ∧ (initGpus l).map Prod.fst = keepFirst (l.map GPUStat.uuid)
    ∧ ((l.map GPUStat.uuid).Nodup →
        initGpus l = l.map (fun g => (g.uuid, g))
        ∧ iterGpus (initGpus l) = l) := by
  have hkeys : (initGpus l).map Prod.fst = keepFirst (l.map GPUStat.uuid) := by
    have h := initGpus_fold_keys l []
    simpa [initGpus] using h
  refine ⟨hkeys ▸ keepFirst_nodup _, hkeys, ?_⟩
  intro hnd
  have h2 : initGpus l = l.map (fun g => (g.uuid, g)) := by
    have h := initGpus_fold_nodup l [] (by simp) hnd
    simpa [initGpus] using h
  refine ⟨h2, ?_⟩
  rw [iterGpus, h2, List.map_map]
  exact List.map_id' l

/-- C7 witness: the two-device demo list has distinct uuids; its
snapshot has no duplicate keys and iterates in device-row order. -/
theorem C7_snapshot_mapping_witness :
    ((initGpus demoList).map Prod.fst).Nodup
    ∧ iterGpus (initGpus demoList) = demoList :=
  ⟨(C7_snapshot_mapping demoList).1,
   ((C7_snapshot_mapping demoList).2.2 (by decide)).2⟩

end Gpustat
